import Mathlib

/-!
Verification of the per-agent epidemic state machine and contact/testing
pipeline of the agent-based epidemic simulator.

Times are modelled as integers (seconds) extended with a `+infinity`
sentinel, matching `absl::Time` / `absl::InfiniteFuture()`.  Durations are
integer seconds.  Probabilities and infectivities are rationals.

The repository sources under `src/` contain `micro_exposures.cc`,
`risk_score.cc` and the headers; the `SEIRAgent` implementation itself
(`seir_agent.cc`) and the event record definitions (`event.h`) are not
under `src/`, only `seir_agent_test.cc` is.  Definitions for those parts
are therefore modelled from the spec and are marked as such in their doc
comments.
-/

/-- Modelled from the spec: absolute time value with at least second
resolution, with a representable `+infinity` sentinel
(`absl::InfiniteFuture()`); `event.h` is not under `src/`. -/
inductive ATime where
  | fin : Int → ATime
  | inf : ATime
deriving DecidableEq, Repr

/-- Less-or-equal on extended times; `inf` is the top element. -/
def ATime.leb : ATime → ATime → Bool
  | _, ATime.inf => true
  | ATime.inf, ATime.fin _ => false
  | ATime.fin a, ATime.fin b => decide (a ≤ b)

/-- Modelled from the spec: arithmetic on times and durations is
saturating toward `+infinity`. -/
def ATime.add : ATime → ATime → ATime
  | ATime.fin a, ATime.fin b => ATime.fin (a + b)
  | _, _ => ATime.inf

/-- Modelled from the spec: the `HealthState` tagged enum
(SUSCEPTIBLE, EXPOSED, INFECTIOUS, RECOVERED); `event.h` is not under
`src/`. -/
inductive HealthState where
  | SUSCEPTIBLE
  | EXPOSED
  | INFECTIOUS
  | RECOVERED
deriving DecidableEq, Repr

/-- Modelled from the spec: a timestamped change of health state,
`HealthTransition { time, health_state }`. -/
structure HealthTransition where
  time : ATime
  health_state : HealthState
deriving DecidableEq, Repr

/-- Modelled from the spec: the `Exposure` event record; micro-exposure
bucket counts are derived separately by `GenerateMicroExposures` and are
not needed by the agent pipeline claims. -/
structure Exposure where
  start_time : Int
  duration : Int
  infectivity : Rat
  symptom_factor : Rat
deriving DecidableEq, Repr

/-- Modelled from the spec: a retained `Exposure` paired with the other
party's uuid. -/
structure Contact where
  other_uuid : Int
  exposure : Exposure
deriving DecidableEq, Repr

/-- Modelled from the spec: the exposure type tag of an
`InfectionOutcome` (`InfectionOutcomeProto::CONTACT`). -/
inductive ExposureType where
  | CONTACT
deriving DecidableEq, Repr

/-- Modelled from the spec: the `InfectionOutcome` event record. -/
structure InfectionOutcome where
  agent_uuid : Int
  exposure : Exposure
  exposure_type : ExposureType
  source_uuid : Int
deriving DecidableEq, Repr

/-- Modelled from the spec: the `Visit` event record. -/
structure Visit where
  location_uuid : Int
  agent_uuid : Int
  start_time : Int
  end_time : Int
  health_state : HealthState
deriving DecidableEq, Repr

/-- Modelled from the spec: the `TestResult` record
`{ time_requested, time_received, needs_retry, probability }`. -/
structure TestResult where
  time_requested : ATime
  time_received : ATime
  needs_retry : Bool
  probability : Rat
deriving DecidableEq, Repr

/-- Modelled from the spec: the initial/sentinel test result
`{ +infinity, +infinity, false, 0 }`. -/
def sentinelTestResult : TestResult :=
  { time_requested := ATime.inf, time_received := ATime.inf,
    needs_retry := false, probability := 0 }

/-- Modelled from the spec: the `ContactReport` event record. -/
structure ContactReport where
  from_agent_uuid : Int
  to_agent_uuid : Int
  test_result : TestResult
deriving DecidableEq, Repr

/-- Modelled from the spec: a half-open time window `[start, end)` over
which the simulator advances every agent once (`timestep.h` is not under
`src/`). -/
structure Timestep where
  start_time : Int
  end_time : Int
deriving DecidableEq, Repr

/-- Translated from `risk_score.h`: `RiskScore::VisitAdjustment`. -/
structure VisitAdjustment where
  frequency_adjustment : Rat
  duration_adjustment : Rat
deriving DecidableEq, Repr

/-- Translated from `risk_score.h`: `RiskScore::TestPolicy`. -/
structure TestPolicy where
  should_test : Bool
  time_requested : ATime
  latency : ATime
deriving DecidableEq, Repr

/-- Translated from `risk_score.h`: `RiskScore::ContactTracingPolicy`. -/
structure ContactTracingPolicy where
  report_recursively : Bool
  send_positive_test : Bool
deriving DecidableEq, Repr

/-- One call made by the agent to one of the four observational methods
of its `RiskScore` (`AddHealthStateTransistion`, `AddExposures`,
`AddExposureNotification`, `AddTestResult`).  The agent accumulates these
observations newest-first; a `RiskScore` implementation answers its query
methods over the accumulated observations. -/
inductive RiskObservation where
  | healthTransition : HealthTransition → RiskObservation
  | exposures : List Exposure → RiskObservation
  | exposureNotification : Contact → TestResult → RiskObservation
  | testResult : TestResult → RiskObservation
deriving DecidableEq, Repr

/-- Translated from `risk_score.h`: the `RiskScore` interface.  The four
query methods are pure over the accumulated observations at the call
point; the observational methods are modelled by the agent appending
`RiskObservation`s to its log. -/
structure RiskScore where
  getVisitAdjustment : List RiskObservation → Timestep → Int → VisitAdjustment
  getTestPolicy : List RiskObservation → Timestep → TestPolicy
  getContactTracingPolicy : List RiskObservation → ContactTracingPolicy
  contactRetentionDuration : List RiskObservation → ATime

/-- Translated from `risk_score.cc`: the `NullRiskScore` returned by
`NewNullRiskScore`.  Its observational methods have empty bodies, so its
query answers never depend on the accumulated observations. -/
def NewNullRiskScore : RiskScore :=
  { getVisitAdjustment := fun _ _ _ =>
      { frequency_adjustment := 1, duration_adjustment := 1 },
    getTestPolicy := fun _ _ =>
      { should_test := false, time_requested := ATime.inf,
        latency := ATime.inf },
    getContactTracingPolicy := fun _ =>
      { report_recursively := false, send_positive_test := false },
    contactRetentionDuration := fun _ => ATime.fin 0 }

/-- Modelled from the spec: `kNumberMicroExposureBuckets` is declared in
`core/event.h`, which is not under `src/`; the spec fixes only that B is
a fixed bucket count, and the repository uses 10 distance buckets. -/
def kNumberMicroExposureBuckets : Nat := 10

/-- Translated from `micro_exposures.cc`: `absl::ToInt64Minutes`
truncates toward zero, i.e. C-style integer division by 60 of the
duration in seconds. -/
def ToInt64Minutes (d : Int) : Int := Int.tdiv d 60

/-- Translated from `micro_exposures.cc`: the value of the local
`uint8 total_counts_to_assign = absl::ToInt64Minutes(overlap)`.
Conversion of a signed 64-bit value to `uint8` reduces it modulo 256. -/
def totalCountsToAssign (overlap : Int) : Nat :=
  ((ToInt64Minutes overlap) % 256).toNat

/-- Translated from `micro_exposures.cc`: `GenerateMicroExposures`
produces the array of `kNumberMicroExposureBuckets` `uint8` counts.
The duration argument is in seconds. -/
def GenerateMicroExposures (overlap : Int) : List Nat :=
  let total := totalCountsToAssign overlap
  if total = 0 then List.replicate kNumberMicroExposureBuckets 0
  else
    let bucketsToFill := min kNumberMicroExposureBuckets total
    let countsPerBucket := total / bucketsToFill
    List.replicate bucketsToFill countsPerBucket ++
      List.replicate (kNumberMicroExposureBuckets - bucketsToFill) 0

/-- The bucket-filling formula exactly as the spec sentence states it,
with the running total taken as the unbounded minute count (no `uint8`
reduction).  Written from the spec words of claim C6, to be compared
with `GenerateMicroExposures` translated from the source. -/
def specMicroExposures (overlap : Int) : List Nat :=
  let total := (ToInt64Minutes overlap).toNat
  if total = 0 then List.replicate kNumberMicroExposureBuckets 0
  else
    let bucketsToFill := min kNumberMicroExposureBuckets total
    let countsPerBucket := total / bucketsToFill
    List.replicate bucketsToFill countsPerBucket ++
      List.replicate (kNumberMicroExposureBuckets - bucketsToFill) 0

/-- The amended bucket-filling formula: identical to the spec sentence
except that the total minute count is reduced modulo 256 (it is stored
in a `uint8`). -/
def specMicroExposuresAmended (overlap : Int) : List Nat :=
  let total := (ToInt64Minutes overlap).toNat % 256
  if total = 0 then List.replicate kNumberMicroExposureBuckets 0
  else
    let bucketsToFill := min kNumberMicroExposureBuckets total
    let countsPerBucket := total / bucketsToFill
    List.replicate bucketsToFill countsPerBucket ++
      List.replicate (kNumberMicroExposureBuckets - bucketsToFill) 0

/-- Modelled from the spec: a transition model maps the latest
`HealthTransition` to the next one; a terminal state is signaled by
`time = +infinity` (`transition_model.h` is not under `src/`). -/
def TransitionModel : Type := HealthTransition → HealthTransition

/-- Modelled from the spec: a transmission model maps a batch of
exposures to either an EXPOSED transition with a definite time or the
unchanged SUSCEPTIBLE state (`transmission_model.h` is not under
`src/`). -/
def TransmissionModel : Type := List Exposure → HealthTransition

/-- Modelled from the spec: the per-agent state of `SEIRAgent`
(`seir_agent.h`/`.cc` are not under `src/`): uuid, current health state,
scheduled `next_transition`, the time-ordered log of past transitions,
the deduplicating store of exposure keys `(source_uuid, start_time)`,
the retained contacts, the latest test result together with the flag
that a requested test is still pending, and the accumulated risk-score
observations (newest first). -/
structure SEIRAgent where
  uuid : Int
  currentState : HealthState
  next_transition : HealthTransition
  history : List HealthTransition
  seen : List (Int × Int)
  contacts : List Contact
  latest_test_result : TestResult
  test_requested : Bool
  risk_obs : List RiskObservation
deriving DecidableEq, Repr

/-- Modelled from the spec: the `CreateSusceptible` factory; initial
state SUSCEPTIBLE with `next_transition = { +infinity, SUSCEPTIBLE }`
and the sentinel test result. -/
def SEIRAgent.CreateSusceptible (uuid : Int) : SEIRAgent :=
  { uuid := uuid, currentState := HealthState.SUSCEPTIBLE,
    next_transition :=
      { time := ATime.inf, health_state := HealthState.SUSCEPTIBLE },
    history := [], seen := [], contacts := [],
    latest_test_result := sentinelTestResult, test_requested := false,
    risk_obs := [] }

/-- Modelled from the spec: the `Create` factory for a non-susceptible
seed; the seed transition is recorded and the transition model is driven
once to schedule the next transition. -/
def SEIRAgent.Create (uuid : Int) (initial : HealthTransition)
    (transition_model : TransitionModel) : SEIRAgent :=
  { uuid := uuid, currentState := initial.health_state,
    next_transition := transition_model initial,
    history := [initial], seen := [], contacts := [],
    latest_test_result := sentinelTestResult, test_requested := false,
    risk_obs := [] }

/-- Time of the latest recorded transition, `+infinity` when none. -/
def SEIRAgent.lastTransitionTime (a : SEIRAgent) : ATime :=
  match a.history.getLast? with
  | some h => h.time
  | none => ATime.inf

/-- Modelled from the spec: the advance loop run while computing visits.
While `next_transition.time` falls before the end of the timestep, the
transition is consumed (appended to the history, reported to the risk
score, current state updated) and the transition model is asked for the
following transition.  A returned transition whose time equals the
latest transition's time is bumped forward, landing one time unit before
the end of the timestep.  The loop is run with explicit fuel since an
arbitrary model need not terminate it. -/
def SEIRAgent.advance (transition_model : TransitionModel) (ts : Timestep) :
    Nat → SEIRAgent → SEIRAgent
  | 0, a => a
  | Nat.succ fuel, a =>
    match a.next_transition.time with
    | ATime.inf => a
    | ATime.fin t =>
      if t < ts.end_time then
        let recorded : HealthTransition :=
          { time :=
              if ATime.fin t = a.lastTransitionTime then
                ATime.fin (ts.end_time - 1)
              else ATime.fin t,
            health_state := a.next_transition.health_state }
        SEIRAgent.advance transition_model ts fuel
          { a with currentState := recorded.health_state,
                   history := a.history ++ [recorded],
                   risk_obs := RiskObservation.healthTransition recorded ::
                     a.risk_obs,
                   next_transition := transition_model recorded }
      else a

/-- Modelled from the spec: the health state in effect at time `t`,
i.e. the state of the last recorded transition at or before `t`
(SUSCEPTIBLE when none); the history is time-ordered. -/
def stateAt (history : List HealthTransition) (t : Int) : HealthState :=
  history.foldl
    (fun acc h => if h.time.leb (ATime.fin t) then h.health_state else acc)
    HealthState.SUSCEPTIBLE

/-- Modelled from the spec: the transition boundaries falling strictly
inside the timestep, in time order. -/
def boundariesIn (history : List HealthTransition) (ts : Timestep) :
    List Int :=
  history.filterMap fun h =>
    match h.time with
    | ATime.fin t =>
      if ts.start_time < t ∧ t < ts.end_time then some t else none
    | ATime.inf => none

/-- Consecutive intervals obtained by cutting `[s, e)` at `cuts`. -/
def intervalsBetween (s : Int) (cuts : List Int) (e : Int) :
    List (Int × Int) :=
  match cuts with
  | [] => [(s, e)]
  | c :: rest => (s, c) :: intervalsBetween c rest e

/-- Modelled from the spec: split one raw visit at every transition
boundary lying inside it, drop zero-length pieces, and stamp each piece
with the agent uuid and the health state in effect at its start. -/
def splitVisit (uuid : Int) (history : List HealthTransition)
    (ts : Timestep) (v : Visit) : List Visit :=
  let cuts := (boundariesIn history ts).filter fun b =>
    v.start_time < b ∧ b < v.end_time
  (intervalsBetween v.start_time cuts v.end_time).filterMap fun p =>
    if p.1 < p.2 then
      some { location_uuid := v.location_uuid, agent_uuid := uuid,
             start_time := p.1, end_time := p.2,
             health_state := stateAt history p.1 }
    else none

/-- Result of `ComputeVisits`: the updated agent and the batch passed to
the single `Broker<Visit>::Send` call, `none` when no send happens. -/
structure CVResult where
  agent : SEIRAgent
  sent : Option (List Visit)
deriving DecidableEq, Repr

/-- Modelled from the spec: `SEIRAgent::ComputeVisits`.  The raw visits
produced by the visit generator are taken as an argument (the generator
is an external collaborator).  The agent first advances its state
machine across the timestep, then splits every raw visit at the
transition boundaries and sends all non-zero sub-visits in one broker
send; no send happens when nothing remains. -/
def SEIRAgent.ComputeVisits (transition_model : TransitionModel)
    (fuel : Nat) (a : SEIRAgent) (ts : Timestep)
    (rawVisits : List Visit) : CVResult :=
  let a2 := SEIRAgent.advance transition_model ts fuel a
  let outVisits := (rawVisits.map (splitVisit a2.uuid a2.history ts)).flatten
  { agent := a2,
    sent := if outVisits.isEmpty then none else some outVisits }

/-- Modelled from the spec: the deduplicating filter of
`ProcessInfectionOutcomes`: keep only outcomes whose key
`(source_uuid, exposure.start_time)` is not already recorded, also
deduplicating within the batch itself. -/
def dedupNew (seen : List (Int × Int)) :
    List InfectionOutcome → List InfectionOutcome
  | [] => []
  | o :: rest =>
    let k := (o.source_uuid, o.exposure.start_time)
    if k ∈ seen then dedupNew seen rest
    else o :: dedupNew (k :: seen) rest

/-- Result of `ProcessInfectionOutcomes`: the updated agent, the number
of `TransmissionModel::GetInfectionOutcome` calls made (0 or 1), and the
batch of exposures passed to that call (empty when no call was made). -/
structure PIOResult where
  agent : SEIRAgent
  transmissionCalls : Nat
  transmissionArg : List Exposure
deriving DecidableEq, Repr

/-- Modelled from the spec: the body of `ProcessInfectionOutcomes` after
the uuid precondition check.  New exposures (deduplicated by
`(source_uuid, start_time)`) are recorded in the dedup store, the
contact log and the risk-score observations.  If the current state is
not SUSCEPTIBLE the transmission model is not invoked and the scheduled
transition is unchanged.  Otherwise, when there are new exposures, the
transmission model is invoked exactly once; if it returns EXPOSED the
agent adopts that transition and drives the transition model once to
schedule the next transition, else it remains susceptible with
`next_transition = { +infinity, SUSCEPTIBLE }`. -/
def SEIRAgent.processInfectionOutcomesChecked
    (transmission_model : TransmissionModel)
    (transition_model : TransitionModel) (a : SEIRAgent)
    (outcomes : List InfectionOutcome) : PIOResult :=
  let newOuts := dedupNew a.seen outcomes
  let newExps := newOuts.map (·.exposure)
  let a1 : SEIRAgent :=
    { a with
      seen := a.seen ++ newOuts.map fun o =>
        (o.source_uuid, o.exposure.start_time),
      contacts := a.contacts ++ newOuts.map fun o =>
        { other_uuid := o.source_uuid, exposure := o.exposure },
      risk_obs :=
        if newOuts.isEmpty then a.risk_obs
        else RiskObservation.exposures newExps :: a.risk_obs }
  if a.currentState = HealthState.SUSCEPTIBLE then
    if newOuts.isEmpty then
      { agent := a1, transmissionCalls := 0, transmissionArg := [] }
    else
      let t := transmission_model newExps
      if t.health_state = HealthState.EXPOSED then
        { agent :=
            { a1 with currentState := HealthState.EXPOSED,
                      history := a1.history ++
                        [{ time := t.time,
                           health_state := HealthState.EXPOSED }],
                      next_transition := transition_model
                        { time := t.time,
                          health_state := HealthState.EXPOSED } },
          transmissionCalls := 1, transmissionArg := newExps }
      else
        { agent :=
            { a1 with next_transition :=
                { time := ATime.inf,
                  health_state := HealthState.SUSCEPTIBLE } },
          transmissionCalls := 1, transmissionArg := newExps }
  else { agent := a1, transmissionCalls := 0, transmissionArg := [] }

/-- Modelled from the spec: `SEIRAgent::ProcessInfectionOutcomes`.  The
precondition that every outcome carries the agent's own uuid is a
programmer error on violation (assert/abort in debug builds), modelled
as `none`. -/
def SEIRAgent.ProcessInfectionOutcomes
    (transmission_model : TransmissionModel)
    (transition_model : TransitionModel) (a : SEIRAgent) (_ts : Timestep)
    (outcomes : List InfectionOutcome) : Option PIOResult :=
  if outcomes.all fun o => o.agent_uuid == a.uuid then
    some (SEIRAgent.processInfectionOutcomesChecked transmission_model
      transition_model a outcomes)
  else none

/-- Modelled from the spec: a boolean test for whether the agent has
ever been EXPOSED or INFECTIOUS at or before time `t`, read off the
recorded transition history. -/
def SEIRAgent.everExposedOrInfectiousBy (a : SEIRAgent) (t : ATime) : Bool :=
  a.history.any fun h =>
    (h.health_state == HealthState.EXPOSED ||
      h.health_state == HealthState.INFECTIOUS) && h.time.leb t

/-- Modelled from the spec: materializing a previously requested test:
`probability = 1.0` if the agent has ever been EXPOSED or INFECTIOUS by
`time_requested`, else `0.0`, with `needs_retry` set `false`. -/
def SEIRAgent.resolveTestResult (a : SEIRAgent) : TestResult :=
  { time_requested := a.latest_test_result.time_requested,
    time_received := a.latest_test_result.time_received,
    needs_retry := false,
    probability :=
      if a.everExposedOrInfectiousBy a.latest_test_result.time_requested
      then 1 else 0 }

/-- Modelled from the spec: a previously requested test is due for
resolution when its `time_received` is at most the end of the
timestep. -/
def SEIRAgent.testDue (a : SEIRAgent) (ts : Timestep) : Bool :=
  a.test_requested && a.latest_test_result.time_received.leb
    (ATime.fin ts.end_time)

/-- Result of `UpdateContactReports`: the updated agent and the batch
passed to the single `Broker<ContactReport>::Send` call, `none` when no
send happens. -/
structure UCRResult where
  agent : SEIRAgent
  sent : Option (List ContactReport)
deriving DecidableEq, Repr

/-- Modelled from the spec: the body of `UpdateContactReports` after the
uuid precondition check.  In order: (1) each incoming report is applied
via `AddExposureNotification` with the contact looked up by
`from_agent_uuid` in the retained log; (2) `AddTestResult` is called
with the current `latest_test_result` (the observational methods are
called in each timestep); (3) a pending test whose `time_received` is at
most the timestep end is materialized and passed to `AddTestResult`;
(4) the test policy is consulted and, if it requests a test and none is
pending (or the pending one needs retry), a new `latest_test_result` is
installed with `time_received = time_requested + latency` and
probability 0; (5) if the contact-tracing policy says to send positive
tests and the latest test result is non-sentinel with positive
probability, one `ContactReport` per retained contact is sent as a
single batch, in contact-log order — no send otherwise, in particular
not an empty batch; (6) contacts older than
`timestep.end - contactRetentionDuration` are pruned. -/
def SEIRAgent.updateContactReportsChecked (risk : RiskScore)
    (a : SEIRAgent) (ts : Timestep) (incoming : List ContactReport) :
    UCRResult :=
  let notifObs := incoming.filterMap fun rep =>
    (a.contacts.find? fun c => c.other_uuid == rep.from_agent_uuid).map
      fun c => RiskObservation.exposureNotification c rep.test_result
  let obs2 := RiskObservation.testResult a.latest_test_result ::
    (notifObs.reverse ++ a.risk_obs)
  let due := a.testDue ts
  let latest3 := if due then a.resolveTestResult else a.latest_test_result
  let pending3 := if due then false else a.test_requested
  let obs3 :=
    if due then RiskObservation.testResult a.resolveTestResult :: obs2
    else obs2
  let policy := risk.getTestPolicy obs3 ts
  let requestNew := policy.should_test && (!pending3 || latest3.needs_retry)
  let latest4 :=
    if requestNew then
      { time_requested := policy.time_requested,
        time_received := ATime.add policy.time_requested policy.latency,
        needs_retry := false, probability := 0 }
    else latest3
  let pending4 := if requestNew then true else pending3
  let ctp := risk.getContactTracingPolicy obs3
  let positive := ctp.send_positive_test &&
    !(latest4 == sentinelTestResult) && decide (0 < latest4.probability) &&
    !a.contacts.isEmpty
  let sent : Option (List ContactReport) :=
    if positive then
      some (a.contacts.map fun c =>
        { from_agent_uuid := a.uuid, to_agent_uuid := c.other_uuid,
          test_result := latest4 })
    else none
  let retention := risk.contactRetentionDuration obs3
  let keptContacts := a.contacts.filter fun c =>
    match retention with
    | ATime.inf => true
    | ATime.fin d => decide (ts.end_time - d ≤ c.exposure.start_time)
  { agent :=
      { a with latest_test_result := latest4, test_requested := pending4,
               risk_obs := obs3, contacts := keptContacts },
    sent := sent }

/-- Modelled from the spec: `SEIRAgent::UpdateContactReports`.  The
precondition that every incoming report's `to_agent_uuid` equals the
agent's uuid is a programmer error on violation (assert/abort in debug
builds), modelled as `none`. -/
def SEIRAgent.UpdateContactReports (risk : RiskScore) (a : SEIRAgent)
    (ts : Timestep) (incoming : List ContactReport) : Option UCRResult :=
  if incoming.all fun rep => rep.to_agent_uuid == a.uuid then
    some (SEIRAgent.updateContactReportsChecked risk a ts incoming)
  else none

/-- Pairwise strict increase of the recorded transition times. -/
def strictlyIncreasingTimes : List HealthTransition → Bool
  | [] => true
  | [_] => true
  | h1 :: h2 :: rest =>
    (match h1.time, h2.time with
     | ATime.fin a, ATime.fin b => decide (a < b)
     | ATime.fin _, ATime.inf => true
     | ATime.inf, _ => false) &&
    strictlyIncreasingTimes (h2 :: rest)

/-- A visit is well-formed for agent `uuid` over timestep `ts` with the
given transition history: non-empty interval, contained in the timestep,
stamped with the agent's uuid and with the health state in effect at its
start time. -/
def visitOk (uuid : Int) (history : List HealthTransition)
    (ts : Timestep) (v : Visit) : Bool :=
  decide (v.start_time < v.end_time) &&
  decide (ts.start_time ≤ v.start_time) &&
  decide (v.end_time ≤ ts.end_time) &&
  (v.agent_uuid == uuid) &&
  (v.health_state == stateAt history v.start_time)

/-- Observation tag test: is this a call to `AddTestResult`. -/
def isTestResultObs : RiskObservation → Bool
  | RiskObservation.testResult _ => true
  | _ => false

/-- The timestep used throughout the agent tests:
`Timestep(absl::UnixEpoch(), absl::Hours(24))`. -/
def ts0 : Timestep := { start_time := 0, end_time := 86400 }

/-- An exposure starting at `t` with infectivity 1, as built by the
agent tests. -/
def expoAt (t : Int) : Exposure :=
  { start_time := t, duration := 0, infectivity := 1, symptom_factor := 0 }

/-- A CONTACT infection outcome for agent 42 from `src` at time `t`. -/
def outcomeFrom (src t : Int) : InfectionOutcome :=
  { agent_uuid := 42, exposure := expoAt t,
    exposure_type := ExposureType.CONTACT, source_uuid := src }

/-- A transition model that never schedules a further transition. -/
def trmNoop : TransitionModel :=
  fun h => { time := ATime.inf, health_state := h.health_state }

/-- A transmission model that always leaves the agent susceptible. -/
def tmStaySusceptible : TransmissionModel :=
  fun _ => { time := ATime.fin 0, health_state := HealthState.SUSCEPTIBLE }

/-- The transition model of the `ComputesVisits` test: maps
`{-43200, EXPOSED}` to `{43200, INFECTIOUS}` and is terminal
otherwise. -/
def trmC1 : TransitionModel := fun h =>
  if h = { time := ATime.fin (-43200), health_state := HealthState.EXPOSED }
  then { time := ATime.fin 43200, health_state := HealthState.INFECTIOUS }
  else { time := ATime.inf, health_state := h.health_state }

/-- Agent 42 seeded EXPOSED at `t = -43200`. -/
def c1Agent : SEIRAgent :=
  SEIRAgent.Create 42
    { time := ATime.fin (-43200), health_state := HealthState.EXPOSED } trmC1

/-- The three raw visits of the `ComputesVisits` test, at locations
0, 1, 0. -/
def c1Raw : List Visit :=
  [ { location_uuid := 0, agent_uuid := 0, start_time := 0,
      end_time := 28800, health_state := HealthState.SUSCEPTIBLE },
    { location_uuid := 1, agent_uuid := 0, start_time := 28800,
      end_time := 57600, health_state := HealthState.SUSCEPTIBLE },
    { location_uuid := 0, agent_uuid := 0, start_time := 57600,
      end_time := 86400, health_state := HealthState.SUSCEPTIBLE } ]

/-- The four expected sub-visits of the split scenario. -/
def c1Expected : List Visit :=
  [ { location_uuid := 0, agent_uuid := 42, start_time := 0,
      end_time := 28800, health_state := HealthState.EXPOSED },
    { location_uuid := 1, agent_uuid := 42, start_time := 28800,
      end_time := 43200, health_state := HealthState.EXPOSED },
    { location_uuid := 1, agent_uuid := 42, start_time := 43200,
      end_time := 57600, health_state := HealthState.INFECTIOUS },
    { location_uuid := 0, agent_uuid := 42, start_time := 57600,
      end_time := 86400, health_state := HealthState.INFECTIOUS } ]

/-- The transition model of the dwell-time test: maps `{-1, EXPOSED}`
to `{-1, INFECTIOUS}` (same time, to be bumped), and the recorded
`{86399, INFECTIOUS}` to `{172800, RECOVERED}`. -/
def trmC5 : TransitionModel := fun h =>
  if h = { time := ATime.fin (-1), health_state := HealthState.EXPOSED }
  then { time := ATime.fin (-1), health_state := HealthState.INFECTIOUS }
  else if h = { time := ATime.fin 86399,
                health_state := HealthState.INFECTIOUS }
  then { time := ATime.fin 172800, health_state := HealthState.RECOVERED }
  else { time := ATime.inf, health_state := h.health_state }

/-- Agent 42 seeded EXPOSED at `t = -1`. -/
def c5Agent : SEIRAgent :=
  SEIRAgent.Create 42
    { time := ATime.fin (-1), health_state := HealthState.EXPOSED } trmC5

/-- The single raw visit `[0, 86400)` of the dwell-time test. -/
def c5Raw : List Visit :=
  [ { location_uuid := 0, agent_uuid := 0, start_time := 0,
      end_time := 86400, health_state := HealthState.SUSCEPTIBLE } ]

/-- The two expected sub-visits of the dwell-time test. -/
def c5Expected : List Visit :=
  [ { location_uuid := 0, agent_uuid := 42, start_time := 0,
      end_time := 86399, health_state := HealthState.EXPOSED },
    { location_uuid := 0, agent_uuid := 42, start_time := 86399,
      end_time := 86400, health_state := HealthState.INFECTIOUS } ]

/-- The transition model of the first-exposure test: maps
`{-1, EXPOSED}` to `{86400, INFECTIOUS}`. -/
def trmC2 : TransitionModel := fun h =>
  if h = { time := ATime.fin (-1), health_state := HealthState.EXPOSED }
  then { time := ATime.fin 86400, health_state := HealthState.INFECTIOUS }
  else { time := ATime.inf, health_state := h.health_state }

/-- The transmission model of the first-exposure test: always returns
the EXPOSED transition at `t = -1`. -/
def tmC2 : TransmissionModel :=
  fun _ => { time := ATime.fin (-1), health_state := HealthState.EXPOSED }

/-- Result of the first infection-outcome batch (source 2 at `t = -1`)
on a susceptible agent 42. -/
def c2r1 : PIOResult :=
  SEIRAgent.processInfectionOutcomesChecked tmC2 trmC2
    (SEIRAgent.CreateSusceptible 42) [outcomeFrom 2 (-1)]

/-- Result of the second batch (source 3 at `t = 5`) on the
now-exposed agent. -/
def c2r2 : PIOResult :=
  SEIRAgent.processInfectionOutcomesChecked tmC2 trmC2 c2r1.agent
    [outcomeFrom 3 5]

/-- The two-exposure single-contact batch of the dedup test: source 2
at times `-2` and `-1`. -/
def c4Batch : List InfectionOutcome :=
  [outcomeFrom 2 (-2), outcomeFrom 2 (-1)]

/-- First processing of the dedup batch on a susceptible agent. -/
def c4r1 : PIOResult :=
  SEIRAgent.processInfectionOutcomesChecked tmStaySusceptible trmNoop
    (SEIRAgent.CreateSusceptible 42) c4Batch

/-- A risk score that never requests a test, always sends positive
tests and retains contacts forever. -/
def riskC3 : RiskScore :=
  { getVisitAdjustment := fun _ _ _ =>
      { frequency_adjustment := 1, duration_adjustment := 1 },
    getTestPolicy := fun _ _ =>
      { should_test := false, time_requested := ATime.inf,
        latency := ATime.inf },
    getContactTracingPolicy := fun _ =>
      { report_recursively := false, send_positive_test := true },
    contactRetentionDuration := fun _ => ATime.inf }

/-- Agent 42 seeded INFECTIOUS at `t = -1`, holding a retained contact
with uuid 314 and a pending test requested at `t = 0` and received at
`t = 3600`. -/
def c3Agent : SEIRAgent :=
  { SEIRAgent.Create 42
      { time := ATime.fin (-1), health_state := HealthState.INFECTIOUS }
      trmNoop with
    contacts := [{ other_uuid := 314, exposure := expoAt 0 }],
    latest_test_result :=
      { time_requested := ATime.fin 0, time_received := ATime.fin 3600,
        needs_retry := false, probability := 0 },
    test_requested := true }

/-- The concrete update-contact-reports run of the positive-test
scenario. -/
def c3r : UCRResult :=
  SEIRAgent.updateContactReportsChecked riskC3 c3Agent ts0 []

/-- The concrete no-op update-contact-reports run on a fresh
susceptible agent with the null risk score. -/
def c10r : UCRResult :=
  SEIRAgent.updateContactReportsChecked NewNullRiskScore
    (SEIRAgent.CreateSusceptible 42) ts0 []

/-- An infection outcome carrying a wrong agent uuid (43 instead of
42), as in the uuid-rejection test. -/
def c8BadOutcome : InfectionOutcome :=
  { agent_uuid := 43, exposure := expoAt 0,
    exposure_type := ExposureType.CONTACT, source_uuid := 0 }

/-- A contact report addressed to a wrong agent uuid (43 instead of
42), as in the uuid-rejection test. -/
def c8BadReport : ContactReport :=
  { from_agent_uuid := 42, to_agent_uuid := 43,
    test_result := sentinelTestResult }

/-- Second processing of the dedup batch, on the state left by the
first one. -/
def c4r2 : PIOResult :=
  SEIRAgent.processInfectionOutcomesChecked tmStaySusceptible trmNoop
    c4r1.agent c4Batch

/-- The truncating minute conversion of a nonnegative duration is plain
natural division by 60. -/
theorem toInt64Minutes_natCast (n : Nat) :
    ToInt64Minutes (n : Int) = ((n / 60 : Nat) : Int) := by
  unfold ToInt64Minutes
  rw [Int.tdiv_eq_ediv (by positivity) (by norm_num)]
  exact (Int.ofNat_ediv n 60).symm

/-- The `uint8` running total of `GenerateMicroExposures` equals the
nonnegative minute count reduced modulo 256. -/
theorem totalCounts_natCast (n : Nat) :
    totalCountsToAssign (n : Int) = n / 60 % 256 := by
  unfold totalCountsToAssign
  rw [toInt64Minutes_natCast]
  omega

/-- Every outcome's key lands in the dedup store extended with the keys
of the newly accepted outcomes. -/
theorem mem_seen_dedupNew :
    ∀ (l : List InfectionOutcome) (s : List (Int × Int)), ∀ o ∈ l,
      (o.source_uuid, o.exposure.start_time) ∈
        s ++ (dedupNew s l).map
          fun x => (x.source_uuid, x.exposure.start_time) := by
  intro l
  induction l with
  | nil => intro s o ho; simp at ho
  | cons x rest ih =>
    intro s o ho
    by_cases hk : (x.source_uuid, x.exposure.start_time) ∈ s
    · rw [show dedupNew s (x :: rest) = dedupNew s rest from by
        simp [dedupNew, hk]]
      rcases List.mem_cons.mp ho with rfl | ho2
      · exact List.mem_append_left _ hk
      · exact ih s o ho2
    · rw [show dedupNew s (x :: rest) = x ::
          dedupNew ((x.source_uuid, x.exposure.start_time) :: s) rest from by
        simp [dedupNew, hk]]
      rcases List.mem_cons.mp ho with rfl | ho2
      · simp
      · have h2 := ih ((x.source_uuid, x.exposure.start_time) :: s) o ho2
        simp only [List.mem_append, List.mem_cons, List.map_cons] at h2 ⊢
        tauto

/-- When every key of the batch is already recorded, deduplication
rejects the whole batch. -/
theorem dedupNew_eq_nil :
    ∀ (l : List InfectionOutcome) (s : List (Int × Int)),
      (∀ o ∈ l, (o.source_uuid, o.exposure.start_time) ∈ s) →
      dedupNew s l = [] := by
  intro l
  induction l with
  | nil => intro s _; rfl
  | cons x rest ih =>
    intro s h
    rw [show dedupNew s (x :: rest) = dedupNew s rest from by
      simp [dedupNew, h x (List.mem_cons_self x rest)]]
    exact ih s fun o ho => h o (List.mem_cons_of_mem x ho)

/-- A key already in the store never appears among the keys of the
accepted outcomes. -/
theorem not_mem_keys_dedupNew :
    ∀ (l : List InfectionOutcome) (s : List (Int × Int)) (k : Int × Int),
      k ∈ s →
      k ∉ (dedupNew s l).map
        fun o => (o.source_uuid, o.exposure.start_time) := by
  intro l
  induction l with
  | nil => intro s k _; simp [dedupNew]
  | cons x rest ih =>
    intro s k hk
    by_cases hx : (x.source_uuid, x.exposure.start_time) ∈ s
    · rw [show dedupNew s (x :: rest) = dedupNew s rest from by
        simp [dedupNew, hx]]
      exact ih s k hk
    · rw [show dedupNew s (x :: rest) = x ::
          dedupNew ((x.source_uuid, x.exposure.start_time) :: s) rest from by
        simp [dedupNew, hx]]
      simp only [List.map_cons, List.mem_cons, not_or]
      constructor
      · rintro rfl
        exact hx hk
      · exact ih _ k (List.mem_cons_of_mem _ hk)

/-- The accepted outcomes of one batch have pairwise distinct keys. -/
theorem nodup_keys_dedupNew :
    ∀ (l : List InfectionOutcome) (s : List (Int × Int)),
      ((dedupNew s l).map
        fun o => (o.source_uuid, o.exposure.start_time)).Nodup := by
  intro l
  induction l with
  | nil => intro s; simp [dedupNew]
  | cons x rest ih =>
    intro s
    by_cases hx : (x.source_uuid, x.exposure.start_time) ∈ s
    · rw [show dedupNew s (x :: rest) = dedupNew s rest from by
        simp [dedupNew, hx]]
      exact ih s
    · rw [show dedupNew s (x :: rest) = x ::
          dedupNew ((x.source_uuid, x.exposure.start_time) :: s) rest from by
        simp [dedupNew, hx]]
      rw [List.map_cons, List.nodup_cons]
      exact ⟨not_mem_keys_dedupNew rest _ _ (List.mem_cons_self _ _), ih _⟩

/-- The dedup store after processing holds the old keys followed by the
keys of the accepted outcomes, whatever branch was taken. -/
theorem pioChecked_seen (tm : TransmissionModel) (trm : TransitionModel)
    (a : SEIRAgent) (outcomes : List InfectionOutcome) :
    (SEIRAgent.processInfectionOutcomesChecked tm trm a
        outcomes).agent.seen =
      a.seen ++ (dedupNew a.seen outcomes).map
        fun o => (o.source_uuid, o.exposure.start_time) := by
  simp only [SEIRAgent.processInfectionOutcomesChecked]
  split_ifs <;> rfl

/-- The transmission model is called at most once per batch. -/
theorem pioChecked_calls (tm : TransmissionModel) (trm : TransitionModel)
    (a : SEIRAgent) (outcomes : List InfectionOutcome) :
    (SEIRAgent.processInfectionOutcomesChecked tm trm a
        outcomes).transmissionCalls ≤ 1 := by
  simp only [SEIRAgent.processInfectionOutcomesChecked]
  split_ifs <;> simp

/-- A batch that deduplicates to nothing leaves the agent untouched and
makes no transmission call. -/
theorem pioChecked_no_new (tm : TransmissionModel) (trm : TransitionModel)
    (a : SEIRAgent) (outcomes : List InfectionOutcome)
    (h : dedupNew a.seen outcomes = []) :
    SEIRAgent.processInfectionOutcomesChecked tm trm a outcomes =
      { agent := a, transmissionCalls := 0, transmissionArg := [] } := by
  simp only [SEIRAgent.processInfectionOutcomesChecked, h, List.map_nil,
    List.append_nil, List.isEmpty_nil, if_true]
  split_ifs <;> rfl

/-- C1: for an agent seeded EXPOSED at `t = -43200` whose transition
model maps `{-43200, EXPOSED}` to `{43200, INFECTIOUS}`,
`ComputeVisits` over the timestep `[0, 86400)` with the three raw
visits `[0,28800)`, `[28800,57600)`, `[57600,86400)` at locations
0, 1, 0 sends, in a single broker send, exactly the four sub-visits
`[0,28800)@0` EXPOSED, `[28800,43200)@1` EXPOSED, `[43200,57600)@1`
INFECTIOUS, `[57600,86400)@0` INFECTIOUS, and every emitted visit has
`start_time < end_time`, lies within the timestep, carries
`agent_uuid = 42` and the health state in effect at its start time. -/
theorem c1_compute_visits_split_across_transition :
    (SEIRAgent.ComputeVisits trmC1 10 c1Agent ts0 c1Raw).sent =
      some c1Expected ∧
    c1Expected.all
      (visitOk 42
        (SEIRAgent.ComputeVisits trmC1 10 c1Agent ts0 c1Raw).agent.history
        ts0) = true := by
  decide

/-- C2: for every agent whose current state is not SUSCEPTIBLE,
`ProcessInfectionOutcomes` records the incoming exposures (dedup store
and contact log are extended by the deduplicated batch) and returns
without invoking the transmission model, leaving the scheduled
`next_transition` unchanged; concretely, after a susceptible agent's
first exposure at `t = -1` makes the transmission model return EXPOSED
and schedules the next transition at `t = 86400`, a second batch at
`t = 5` from source 3 leaves the scheduled transition time at 86400. -/
theorem c2_process_infection_outcomes_ignores_if_already_exposed :
    (∀ (tm : TransmissionModel) (trm : TransitionModel) (a : SEIRAgent)
       (ts : Timestep) (outcomes : List InfectionOutcome) (r : PIOResult),
       a.currentState ≠ HealthState.SUSCEPTIBLE →
       SEIRAgent.ProcessInfectionOutcomes tm trm a ts outcomes = some r →
       r.transmissionCalls = 0 ∧
       r.agent.next_transition = a.next_transition ∧
       r.agent.contacts = a.contacts ++ (dedupNew a.seen outcomes).map
         (fun o => { other_uuid := o.source_uuid, exposure := o.exposure }) ∧
       r.agent.seen = a.seen ++ (dedupNew a.seen outcomes).map
         (fun o => (o.source_uuid, o.exposure.start_time))) ∧
    (SEIRAgent.ProcessInfectionOutcomes tmC2 trmC2
       (SEIRAgent.CreateSusceptible 42) ts0 [outcomeFrom 2 (-1)] =
         some c2r1 ∧
     c2r1.agent.next_transition =
       { time := ATime.fin 86400, health_state := HealthState.INFECTIOUS } ∧
     SEIRAgent.ProcessInfectionOutcomes tmC2 trmC2 c2r1.agent ts0
       [outcomeFrom 3 5] = some c2r2 ∧
     c2r2.transmissionCalls = 0 ∧
     c2r2.agent.next_transition.time = ATime.fin 86400) := by
  constructor
  · intro tm trm a ts outcomes r hne hsome
    unfold SEIRAgent.ProcessInfectionOutcomes at hsome
    split at hsome
    · injection hsome with hsome
      subst hsome
      refine ⟨?_, ?_, ?_, ?_⟩ <;>
        simp [SEIRAgent.processInfectionOutcomesChecked, hne]
    · exact absurd hsome (by simp)
  · exact ⟨by decide, by decide, by decide, by decide, by decide⟩

/-- C2 witness: the second batch at `t = 5` on the exposed agent makes
no transmission call, leaves the next transition unchanged and records
the exposure. -/
theorem c2_process_infection_outcomes_witness :
    c2r2.transmissionCalls = 0 ∧
    c2r2.agent.next_transition = c2r1.agent.next_transition ∧
    c2r2.agent.contacts = c2r1.agent.contacts ++
      (dedupNew c2r1.agent.seen [outcomeFrom 3 5]).map
        (fun o => { other_uuid := o.source_uuid, exposure := o.exposure }) ∧
    c2r2.agent.seen = c2r1.agent.seen ++
      (dedupNew c2r1.agent.seen [outcomeFrom 3 5]).map
        (fun o => (o.source_uuid, o.exposure.start_time)) :=
  c2_process_infection_outcomes_ignores_if_already_exposed.1 tmC2 trmC2
    c2r1.agent ts0 [outcomeFrom 3 5] c2r2 (by decide) (by decide)

/-- C3: in `UpdateContactReports`, a previously requested test whose
`time_received` is at most the timestep end is resolved with
probability 1 if the agent has ever been EXPOSED or INFECTIOUS by
`time_requested` and 0 otherwise, with `needs_retry` set false and the
resolved result passed to `AddTestResult`; and a batch of contact
reports `{from = self.uuid, to = c.other_uuid, test_result = latest}` —
one per retained contact, in contact-log order — is sent if and only if
the contact-tracing policy's `send_positive_test` holds and the
resolved result is non-sentinel with probability > 0 (stated for risk
scores whose test policy requests no new test in this timestep, so the
resolved result is still the latest at send time). -/
theorem c3_update_contact_reports_resolves_and_broadcasts :
    ∀ (risk : RiskScore) (ctp : ContactTracingPolicy) (a : SEIRAgent)
      (ts : Timestep) (incoming : List ContactReport) (r : UCRResult),
      (∀ log t, (risk.getTestPolicy log t).should_test = false) →
      (∀ log, risk.getContactTracingPolicy log = ctp) →
      a.test_requested = true →
      a.latest_test_result.time_received.leb (ATime.fin ts.end_time) =
        true →
      a.contacts ≠ [] →
      SEIRAgent.UpdateContactReports risk a ts incoming = some r →
      a.resolveTestResult.needs_retry = false ∧
      a.resolveTestResult.probability =
        (if a.everExposedOrInfectiousBy a.latest_test_result.time_requested
         then 1 else 0) ∧
      r.agent.latest_test_result = a.resolveTestResult ∧
      r.agent.test_requested = false ∧
      RiskObservation.testResult a.resolveTestResult ∈ r.agent.risk_obs ∧
      r.sent = (if ctp.send_positive_test = true ∧
          a.resolveTestResult ≠ sentinelTestResult ∧
          0 < a.resolveTestResult.probability then
        some (a.contacts.map fun c =>
          { from_agent_uuid := a.uuid, to_agent_uuid := c.other_uuid,
            test_result := a.resolveTestResult })
        else none) := by
  intro risk ctp a ts incoming r hpol hctp hreq hrecv hcon hsome
  unfold SEIRAgent.UpdateContactReports at hsome
  split at hsome
  · injection hsome with hsome
    subst hsome
    have hdue : a.testDue ts = true := by
      unfold SEIRAgent.testDue
      rw [hreq, hrecv]
      rfl
    have hcone : a.contacts.isEmpty = false := by
      cases hc : a.contacts
      · exact absurd hc hcon
      · rfl
    refine ⟨rfl, rfl, ?_, ?_, ?_, ?_⟩
    · simp [SEIRAgent.updateContactReportsChecked, hdue, hpol, hctp, hcone]
    · simp [SEIRAgent.updateContactReportsChecked, hdue, hpol, hctp, hcone]
    · simp [SEIRAgent.updateContactReportsChecked, hdue, hpol, hctp, hcone]
    · by_cases h1 : ctp.send_positive_test = true <;>
        by_cases h2 : a.resolveTestResult = sentinelTestResult <;>
        by_cases h3 : 0 < a.resolveTestResult.probability <;>
        simp [SEIRAgent.updateContactReportsChecked, hdue, hpol, hctp,
          hcone, h1, h2, h3]
  · exact absurd hsome (by simp)

/-- C3 witness: the infectious agent with a pending test received at
`t = 3600` and one retained contact 314, under a risk score that sends
positive tests and requests no new test. -/
theorem c3_update_contact_reports_witness :
    c3Agent.resolveTestResult.needs_retry = false ∧
    c3Agent.resolveTestResult.probability =
      (if c3Agent.everExposedOrInfectiousBy
          c3Agent.latest_test_result.time_requested then 1 else 0) ∧
    c3r.agent.latest_test_result = c3Agent.resolveTestResult ∧
    c3r.agent.test_requested = false ∧
    RiskObservation.testResult c3Agent.resolveTestResult ∈
      c3r.agent.risk_obs ∧
    c3r.sent = (if (ContactTracingPolicy.mk false
          true).send_positive_test = true ∧
        c3Agent.resolveTestResult ≠ sentinelTestResult ∧
        0 < c3Agent.resolveTestResult.probability then
      some (c3Agent.contacts.map fun c =>
        { from_agent_uuid := c3Agent.uuid, to_agent_uuid := c.other_uuid,
          test_result := c3Agent.resolveTestResult })
      else none) :=
  c3_update_contact_reports_resolves_and_broadcasts riskC3
    { report_recursively := false, send_positive_test := true }
    c3Agent ts0 [] c3r (fun _ _ => rfl) (fun _ => rfl) (by decide)
    (by decide) (by decide) (by decide)

/-- C4: exposure ingest is idempotent and deduplicating: a susceptible
agent's non-empty all-new batch triggers exactly one transmission-model
call; processing the same batch twice produces the same resulting agent
state with at most one transmission-model call across both invocations;
and duplicate `(source_uuid, start_time)` keys within a single batch
are deduplicated before the call (the argument passed to the model is
the key-deduplicated batch, whose keys are pairwise distinct). -/
theorem c4_exposure_ingest_idempotent_dedup :
    (∀ (tm : TransmissionModel) (trm : TransitionModel) (a : SEIRAgent)
       (outcomes : List InfectionOutcome),
       a.currentState = HealthState.SUSCEPTIBLE → outcomes ≠ [] →
       (∀ o ∈ outcomes,
         (o.source_uuid, o.exposure.start_time) ∉ a.seen) →
       (SEIRAgent.processInfectionOutcomesChecked tm trm a
           outcomes).transmissionCalls = 1) ∧
    (∀ (tm : TransmissionModel) (trm : TransitionModel) (a : SEIRAgent)
       (ts : Timestep) (outcomes : List InfectionOutcome)
       (r1 r2 : PIOResult),
       SEIRAgent.ProcessInfectionOutcomes tm trm a ts outcomes = some r1 →
       SEIRAgent.ProcessInfectionOutcomes tm trm r1.agent ts outcomes =
         some r2 →
       r2.agent = r1.agent ∧
       r1.transmissionCalls + r2.transmissionCalls ≤ 1) ∧
    (∀ (tm : TransmissionModel) (trm : TransitionModel) (a : SEIRAgent)
       (outcomes : List InfectionOutcome),
       ((dedupNew a.seen outcomes).map
         fun o => (o.source_uuid, o.exposure.start_time)).Nodup ∧
       ((SEIRAgent.processInfectionOutcomesChecked tm trm a
            outcomes).transmissionArg =
          (dedupNew a.seen outcomes).map (fun o => o.exposure) ∨
        (SEIRAgent.processInfectionOutcomesChecked tm trm a
            outcomes).transmissionArg = [])) := by
  refine ⟨?_, ?_, ?_⟩
  · intro tm trm a outcomes hs hne hnew
    obtain ⟨x, rest, rfl⟩ := List.exists_cons_of_ne_nil hne
    have hd : dedupNew a.seen (x :: rest) = x ::
        dedupNew ((x.source_uuid, x.exposure.start_time) :: a.seen) rest := by
      simp [dedupNew, hnew x (List.mem_cons_self x rest)]
    simp only [SEIRAgent.processInfectionOutcomesChecked, hd, hs]
    simp only [List.isEmpty_cons, eq_self_iff_true, if_true,
      Bool.false_eq_true, if_false]
    split_ifs <;> rfl
  · intro tm trm a ts outcomes r1 r2 h1 h2
    unfold SEIRAgent.ProcessInfectionOutcomes at h1 h2
    split at h1
    · injection h1 with h1
      subst h1
      split at h2
      · injection h2 with h2
        subst h2
        have hcov : ∀ o ∈ outcomes,
            (o.source_uuid, o.exposure.start_time) ∈
              (SEIRAgent.processInfectionOutcomesChecked tm trm a
                outcomes).agent.seen := by
          intro o ho
          rw [pioChecked_seen]
          exact mem_seen_dedupNew outcomes a.seen o ho
        have hnil := dedupNew_eq_nil outcomes _ hcov
        rw [pioChecked_no_new tm trm _ outcomes hnil]
        refine ⟨rfl, ?_⟩
        have hle := pioChecked_calls tm trm a outcomes
        simpa using hle
      · exact absurd h2 (by simp)
    · exact absurd h1 (by simp)
  · intro tm trm a outcomes
    refine ⟨nodup_keys_dedupNew outcomes a.seen, ?_⟩
    simp only [SEIRAgent.processInfectionOutcomesChecked]
    split_ifs <;> simp

/-- C4 witness: the two-exposure single-contact batch on a fresh
susceptible agent (one transmission call), processed twice (same state,
no further call), with pairwise-distinct keys in the model argument. -/
theorem c4_exposure_ingest_witness :
    (SEIRAgent.processInfectionOutcomesChecked tmStaySusceptible trmNoop
        (SEIRAgent.CreateSusceptible 42) c4Batch).transmissionCalls = 1 ∧
    (c4r2.agent = c4r1.agent ∧
      c4r1.transmissionCalls + c4r2.transmissionCalls ≤ 1) ∧
    (((dedupNew (SEIRAgent.CreateSusceptible 42).seen c4Batch).map
        fun o => (o.source_uuid, o.exposure.start_time)).Nodup ∧
     ((SEIRAgent.processInfectionOutcomesChecked tmStaySusceptible trmNoop
          (SEIRAgent.CreateSusceptible 42) c4Batch).transmissionArg =
        (dedupNew (SEIRAgent.CreateSusceptible 42).seen c4Batch).map
          (fun o => o.exposure) ∨
      (SEIRAgent.processInfectionOutcomesChecked tmStaySusceptible trmNoop
          (SEIRAgent.CreateSusceptible 42) c4Batch).transmissionArg =
        [])) :=
  ⟨c4_exposure_ingest_idempotent_dedup.1 tmStaySusceptible trmNoop
      (SEIRAgent.CreateSusceptible 42) c4Batch (by decide) (by decide)
      (by decide),
   c4_exposure_ingest_idempotent_dedup.2.1 tmStaySusceptible trmNoop
      (SEIRAgent.CreateSusceptible 42) ts0 c4Batch c4r1 c4r2 (by decide)
      (by decide),
   c4_exposure_ingest_idempotent_dedup.2.2 tmStaySusceptible trmNoop
      (SEIRAgent.CreateSusceptible 42) c4Batch⟩

/-- C5: when the transition model returns a transition whose time
equals the latest transition's time (`{-1, INFECTIOUS}` for the agent
seeded EXPOSED at `t = -1`), the recorded transition is bumped forward
to `{86399, INFECTIOUS}` so that the stored transition times are
strictly increasing, and the single raw visit `[0, 86400)` splits into
`[0,86399)` EXPOSED and `[86399,86400)` INFECTIOUS with no zero-length
piece emitted. -/
theorem c5_transition_time_bump :
    (SEIRAgent.ComputeVisits trmC5 10 c5Agent ts0 c5Raw).agent.history =
      [ { time := ATime.fin (-1), health_state := HealthState.EXPOSED },
        { time := ATime.fin 86399,
          health_state := HealthState.INFECTIOUS } ] ∧
    strictlyIncreasingTimes
      (SEIRAgent.ComputeVisits trmC5 10 c5Agent ts0 c5Raw).agent.history =
      true ∧
    (SEIRAgent.ComputeVisits trmC5 10 c5Agent ts0 c5Raw).sent =
      some c5Expected ∧
    ((SEIRAgent.ComputeVisits trmC5 10 c5Agent ts0 c5Raw).sent.getD
        []).all (fun v => decide (v.start_time < v.end_time)) = true := by
  refine ⟨by decide, by decide, by decide, by decide⟩

/-- C6 counterexample: at an overlap of exactly 256 minutes the code
returns the all-zero bucket array, while the claimed formula (whose
total minute count is not reduced modulo 256) would fill the first ten
buckets with 25. -/
theorem c6_micro_exposures_counterexample :
    GenerateMicroExposures (256 * 60) ≠ specMicroExposures (256 * 60) := by
  decide

/-- C6 (amended): for every nonnegative overlap,
`GenerateMicroExposures` returns `kNumberMicroExposureBuckets` `uint8`
counts computed deterministically with the total minute count reduced
modulo 256 (it is stored in a `uint8`): if the reduced total is zero
all buckets are zero, otherwise the first `min(B, total)` buckets each
hold `total / min(B, total)` and the remaining buckets are zero; all
counts fit in a `uint8`. -/
theorem c6_micro_exposures_amended (n : Nat) :
    GenerateMicroExposures (n : Int) = specMicroExposuresAmended (n : Int) ∧
    (GenerateMicroExposures (n : Int)).length =
      kNumberMicroExposureBuckets ∧
    (GenerateMicroExposures (n : Int)).all
      (fun x => decide (x < 256)) = true := by
  have htot : totalCountsToAssign (n : Int) = n / 60 % 256 :=
    totalCounts_natCast n
  have htot2 : (ToInt64Minutes (n : Int)).toNat % 256 = n / 60 % 256 := by
    rw [toInt64Minutes_natCast]
    omega
  refine ⟨?_, ?_, ?_⟩
  · simp only [GenerateMicroExposures, specMicroExposuresAmended]
    rw [htot, htot2]
  · simp only [GenerateMicroExposures]
    rw [htot]
    by_cases hz : n / 60 % 256 = 0
    · rw [if_pos hz]
      simp
    · rw [if_neg hz]
      simp only [List.length_append, List.length_replicate]
      have hmin := Nat.min_le_left kNumberMicroExposureBuckets (n / 60 % 256)
      omega
  · simp only [GenerateMicroExposures]
    rw [htot]
    have hlt : n / 60 % 256 < 256 := Nat.mod_lt _ (by norm_num)
    by_cases hz : n / 60 % 256 = 0
    · rw [if_pos hz]
      simp
    · rw [if_neg hz]
      rw [List.all_eq_true]
      intro x hx
      rw [List.mem_append] at hx
      rcases hx with hx | hx
      · have hxe := List.eq_of_mem_replicate hx
        subst hxe
        have hd : n / 60 % 256 /
            min kNumberMicroExposureBuckets (n / 60 % 256) ≤
            n / 60 % 256 := Nat.div_le_self _ _
        simp only [decide_eq_true_eq]
        omega
      · have hxe := List.eq_of_mem_replicate hx
        subst hxe
        decide

/-- C7: the Null risk score (`NewNullRiskScore`) returns, for every
timestep and location uuid, a visit adjustment of `(1, 1)`, a test
policy with `should_test = false`, a contact-tracing policy
`{report_recursively = false, send_positive_test = false}`, and a
contact retention duration of zero; and its four observational methods
leave its answers unchanged (its queries ignore the accumulated
observations). -/
theorem c7_null_risk_score_constants :
    ∀ (log : List RiskObservation) (ts : Timestep) (loc : Int)
      (obs : RiskObservation),
      NewNullRiskScore.getVisitAdjustment log ts loc =
        { frequency_adjustment := 1, duration_adjustment := 1 } ∧
      NewNullRiskScore.getTestPolicy log ts =
        { should_test := false, time_requested := ATime.inf,
          latency := ATime.inf } ∧
      NewNullRiskScore.getContactTracingPolicy log =
        { report_recursively := false, send_positive_test := false } ∧
      NewNullRiskScore.contactRetentionDuration log = ATime.fin 0 ∧
      NewNullRiskScore.getVisitAdjustment (obs :: log) ts loc =
        NewNullRiskScore.getVisitAdjustment log ts loc ∧
      NewNullRiskScore.getTestPolicy (obs :: log) ts =
        NewNullRiskScore.getTestPolicy log ts ∧
      NewNullRiskScore.getContactTracingPolicy (obs :: log) =
        NewNullRiskScore.getContactTracingPolicy log ∧
      NewNullRiskScore.contactRetentionDuration (obs :: log) =
        NewNullRiskScore.contactRetentionDuration log := by
  intro log ts loc obs
  exact ⟨rfl, rfl, rfl, rfl, rfl, rfl, rfl, rfl⟩

/-- C8: passing an input whose uuid does not match the agent is a
programmer error that asserts and aborts in debug builds (modelled as
`none`): `ProcessInfectionOutcomes` with any outcome whose
`agent_uuid` differs from the agent's uuid, and `UpdateContactReports`
with any incoming report whose `to_agent_uuid` differs from the
agent's uuid, both die. -/
theorem c8_wrong_uuid_aborts :
    (∀ (tm : TransmissionModel) (trm : TransitionModel) (a : SEIRAgent)
       (ts : Timestep) (outcomes : List InfectionOutcome),
       (∃ o ∈ outcomes, o.agent_uuid ≠ a.uuid) →
       SEIRAgent.ProcessInfectionOutcomes tm trm a ts outcomes = none) ∧
    (∀ (risk : RiskScore) (a : SEIRAgent) (ts : Timestep)
       (incoming : List ContactReport),
       (∃ rep ∈ incoming, rep.to_agent_uuid ≠ a.uuid) →
       SEIRAgent.UpdateContactReports risk a ts incoming = none) := by
  constructor
  · rintro tm trm a ts outcomes ⟨o, ho, hne⟩
    have hall : (outcomes.all fun o => o.agent_uuid == a.uuid) = false := by
      cases hcase : outcomes.all fun o => o.agent_uuid == a.uuid
      · rfl
      · exact absurd (beq_iff_eq.mp (List.all_eq_true.mp hcase o ho)) hne
    simp [SEIRAgent.ProcessInfectionOutcomes, hall]
  · rintro risk a ts incoming ⟨rep, hr, hne⟩
    have hall : (incoming.all fun rep => rep.to_agent_uuid == a.uuid) =
        false := by
      cases hcase : incoming.all fun rep => rep.to_agent_uuid == a.uuid
      · rfl
      · exact absurd (beq_iff_eq.mp (List.all_eq_true.mp hcase rep hr)) hne
    simp [SEIRAgent.UpdateContactReports, hall]

/-- C8 witness: agent 42 aborts on an outcome carrying uuid 43 and on a
report addressed to uuid 43. -/
theorem c8_wrong_uuid_witness :
    SEIRAgent.ProcessInfectionOutcomes tmStaySusceptible trmNoop
      (SEIRAgent.CreateSusceptible 42) ts0 [c8BadOutcome] = none ∧
    SEIRAgent.UpdateContactReports NewNullRiskScore
      (SEIRAgent.CreateSusceptible 42) ts0 [c8BadReport] = none :=
  ⟨c8_wrong_uuid_aborts.1 tmStaySusceptible trmNoop
      (SEIRAgent.CreateSusceptible 42) ts0 [c8BadOutcome]
      ⟨c8BadOutcome, by decide, by decide⟩,
   c8_wrong_uuid_aborts.2 NewNullRiskScore
      (SEIRAgent.CreateSusceptible 42) ts0 [c8BadReport]
      ⟨c8BadReport, by decide, by decide⟩⟩

/-- C9: `GenerateMicroExposures` stores the total minute count of the
overlap in an 8-bit unsigned integer, so for every nonnegative overlap
the assigned total equals the minute count modulo 256; in particular an
overlap of exactly 256 minutes produces the all-zero bucket array,
identical to the output for a zero overlap. -/
theorem c9_total_counts_u8_truncation :
    (∀ n : Nat, totalCountsToAssign (n : Int) = n / 60 % 256) ∧
    GenerateMicroExposures (256 * 60) =
      List.replicate kNumberMicroExposureBuckets 0 ∧
    GenerateMicroExposures (256 * 60) = GenerateMicroExposures 0 := by
  exact ⟨totalCounts_natCast, by decide, by decide⟩

/-- C10: every successful `UpdateContactReports` call appends to the
risk-score observations at least one `AddTestResult` carrying the
current `latest_test_result` — on a fresh agent the sentinel
`{+inf, +inf, false, 0}` — even when the incoming batch is empty, no
test is pending and the test policy does not test; and when a
requested test resolves in the same call, `AddTestResult` is invoked a
second time with the resolved result. -/
theorem c10_add_test_result_always_called :
    (∀ (risk : RiskScore) (a : SEIRAgent) (ts : Timestep)
       (incoming : List ContactReport) (r : UCRResult),
       SEIRAgent.UpdateContactReports risk a ts incoming = some r →
       ∃ pre, r.agent.risk_obs = pre ++ a.risk_obs ∧
         RiskObservation.testResult a.latest_test_result ∈ pre ∧
         (a.testDue ts = true →
           RiskObservation.testResult a.resolveTestResult ∈ pre ∧
           2 ≤ pre.countP isTestResultObs)) ∧
    (∀ u : Int, (SEIRAgent.CreateSusceptible u).latest_test_result =
      { time_requested := ATime.inf, time_received := ATime.inf,
        needs_retry := false, probability := 0 }) := by
  constructor
  · intro risk a ts incoming r hsome
    unfold SEIRAgent.UpdateContactReports at hsome
    split at hsome
    · injection hsome with hsome
      subst hsome
      by_cases hdue : a.testDue ts = true
      · refine ⟨RiskObservation.testResult a.resolveTestResult ::
          RiskObservation.testResult a.latest_test_result ::
          (incoming.filterMap fun rep =>
            (a.contacts.find? fun c =>
              c.other_uuid == rep.from_agent_uuid).map
              fun c => RiskObservation.exposureNotification c
                rep.test_result).reverse, ?_, ?_, ?_⟩
        · simp [SEIRAgent.updateContactReportsChecked, hdue]
        · simp
        · intro _
          refine ⟨by simp, ?_⟩
          simp [List.countP_cons, isTestResultObs]
      · refine ⟨RiskObservation.testResult a.latest_test_result ::
          (incoming.filterMap fun rep =>
            (a.contacts.find? fun c =>
              c.other_uuid == rep.from_agent_uuid).map
              fun c => RiskObservation.exposureNotification c
                rep.test_result).reverse, ?_, ?_, ?_⟩
        · simp [SEIRAgent.updateContactReportsChecked, hdue]
        · simp
        · intro h
          exact absurd h hdue
    · exact absurd hsome (by simp)
  · intro u
    rfl

/-- C10 witness: the no-op call on a fresh susceptible agent with the
null risk score. -/
theorem c10_add_test_result_witness :
    (∃ pre, c10r.agent.risk_obs = pre ++
        (SEIRAgent.CreateSusceptible 42).risk_obs ∧
      RiskObservation.testResult
        (SEIRAgent.CreateSusceptible 42).latest_test_result ∈ pre ∧
      ((SEIRAgent.CreateSusceptible 42).testDue ts0 = true →
        RiskObservation.testResult
          (SEIRAgent.CreateSusceptible 42).resolveTestResult ∈ pre ∧
        2 ≤ pre.countP isTestResultObs)) ∧
    (SEIRAgent.CreateSusceptible 42).latest_test_result =
      { time_requested := ATime.inf, time_received := ATime.inf,
        needs_retry := false, probability := 0 } :=
  ⟨c10_add_test_result_always_called.1 NewNullRiskScore
      (SEIRAgent.CreateSusceptible 42) ts0 [] c10r (by decide),
   c10_add_test_result_always_called.2 42⟩
